import Mathlib

/-
  Shallow embedding of src/cluster/datastore.go from the traefik repository.

  The embedding is parametric in the opaque configuration type Obj (the Go
  interface Object).  External effects (the libkv store client, the remote
  lock, the listener and the log) are modelled by explicit outcome records
  passed in, and each operation additionally returns a trace of the
  observable events it performs (guard lock and unlock, cache reads and
  writes, KV calls, listener and log calls), in source order.
-/

deriving instance DecidableEq for Except

namespace Cluster

/-- Metadata stores Object plus metadata: type Metadata struct { Lock string }. -/
structure Metadata where
  Lock : String
deriving DecidableEq, Repr

/-- The process-local cached state guarded by d.localLock:
the fields d.object and d.meta of the Datastore struct. -/
structure DatastoreState (Obj : Type) where
  object : Obj
  meta : Metadata
deriving DecidableEq, Repr

/-- Observable events, in the order the Go statements perform them. -/
inductive Ev (Obj : Type) where
  | rLock                -- d.localLock.RLock()
  | rUnlock              -- d.localLock.RUnlock()
  | wLock                -- d.localLock.Lock()
  | wUnlock              -- d.localLock.Unlock()
  | readObject           -- reading d.object (return d.object in Get)
  | readMetaPtr          -- reading the d.meta pointer (return d.meta in get)
  | readMetaField        -- reading meta.Lock in the Begin sync operation
  | loadObject           -- d.kv.LoadConfig(d.object): in-place write of the cached object
  | loadMeta             -- d.kv.LoadConfig(d.meta): in-place write of the cached metadata
  | writeObject          -- s.Datastore.object = object in Commit
  | storeConfig          -- s.kv.StoreConfig(object)
  | lockerUnlock         -- s.remoteLock.Unlock()
  | listenerCall (o : Obj)  -- d.listener(d.object)
  | logListenerErr       -- log.Errorf on a listener error
  | logRetry (e : String)   -- the notify callback of backoff.RetryNotify in watchChanges
  | cancelSub            -- cancel() of the watch sub-context
  | stopWatch            -- stopCh <- struct\x7b\x7d\x7b\x7d in the watch operation
deriving DecidableEq, Repr

/-- Annotate each event of a trace with the number of read holds and write
holds of the readers-writer guard at the moment the event happens. -/
def annotate {Obj : Type} : Nat → Nat → List (Ev Obj) → List (Ev Obj × Nat × Nat)
  | _, _, [] => []
  | r, w, ev :: rest =>
    (ev, r, w) ::
      (match ev with
       | .rLock => annotate (r + 1) w rest
       | .rUnlock => annotate (r - 1) w rest
       | .wLock => annotate r (w + 1) rest
       | .wUnlock => annotate r (w - 1) rest
       | _ => annotate r w rest)

/-- Guard discipline of a single annotated event: cache reads need some hold,
cache writes need a write hold, unlocks need a matching hold, and the
listener must be called with no hold at all. -/
def accessOk {Obj : Type} : Ev Obj × Nat × Nat → Bool
  | (.readObject, r, w) => decide (0 < r + w)
  | (.readMetaPtr, r, w) => decide (0 < r + w)
  | (.readMetaField, r, w) => decide (0 < r + w)
  | (.loadObject, _, w) => decide (0 < w)
  | (.loadMeta, _, w) => decide (0 < w)
  | (.writeObject, _, w) => decide (0 < w)
  | (.rUnlock, r, _) => decide (0 < r)
  | (.wUnlock, _, w) => decide (0 < w)
  | (.listenerCall _, r, w) => decide (r = 0 ∧ w = 0)
  | _ => true

/-- A trace respects the guard discipline when every event does. -/
def guardedOk {Obj : Type} (tr : List (Ev Obj)) : Bool :=
  (annotate 0 0 tr).all accessOk

/-- Holds of the guard left over after a trace has run. -/
def finalHolds {Obj : Type} : Nat → Nat → List (Ev Obj) → Nat × Nat
  | r, w, [] => (r, w)
  | r, w, ev :: rest =>
    match ev with
    | .rLock => finalHolds (r + 1) w rest
    | .rUnlock => finalHolds (r - 1) w rest
    | .wLock => finalHolds r (w + 1) rest
    | .wUnlock => finalHolds r (w - 1) rest
    | _ => finalHolds r w rest

/-- NewDataStore derives the lock key: lockKey := kvSource.Prefix + "/lock",
where ns is the configured namespace of the KV source. -/
def NewDataStore.lockKey (ns : String) : String := ns ++ "/lock"

/-- One nanosecond count of time.Second, the Go time.Duration unit. -/
def timeSecond : Nat := 1000000000

/-- Get atomically a struct from the KV store:
func (d *Datastore) Get() Object \x7b d.localLock.RLock(); defer d.localLock.RUnlock(); return d.object \x7d.
Returns the cached object together with the event trace. -/
def Datastore.Get {Obj : Type} (d : DatastoreState Obj) : Obj × List (Ev Obj) :=
  (d.object, [.rLock, .readObject, .rUnlock])

/-- func (d *Datastore) get() *Metadata \x7b d.localLock.RLock(); defer d.localLock.RUnlock(); return d.meta \x7d.
The deferred RUnlock runs when get returns, so only the pointer fetch is
inside the read hold. -/
def Datastore.get {Obj : Type} (d : DatastoreState Obj) : Metadata × List (Ev Obj) :=
  (d.meta, [.rLock, .readMetaPtr, .rUnlock])

/-- The sync-verification operation closure inside Begin:
meta := d.get(); if meta.Lock != id \x7b return fmt.Errorf(...) \x7d; return nil.
The read of meta.Lock happens after get has returned, hence after RUnlock:
the trace records it after the rUnlock event. -/
def syncOperation {Obj : Type} (d : DatastoreState Obj) (id : String) :
    Option String × List (Ev Obj) :=
  let m := Datastore.get d
  (if m.1.Lock = id then none
   else some ("Object lock value: expected " ++ id ++ ", got " ++ m.1.Lock),
   m.2 ++ [.readMetaField])

/-- Result of one backoff.RetryNotify run. -/
inductive RetryResult where
  | ok (attempts : Nat)                 -- operation returned nil at this attempt
  | failed (e : String) (elapsed : Nat) -- NextBackOff returned Stop: elapsed time over the bound
  | fuelOut                             -- recursion fuel exhausted (unreachable for positive sleeps)
deriving DecidableEq, Repr

/-- backoff.RetryNotify over an ExponentialBackOff with MaxElapsedTime set:
run the operation; a nil result ends the loop successfully; on an error,
stop and return the error once the elapsed time exceeds maxElapsed,
otherwise sleep the next backoff interval and retry.  The randomized
exponential schedule of the library is abstracted by the intervals
function (in nanoseconds); elapsed time accumulates the sleeps.  The fuel
argument only makes the recursion total. -/
def retryNotify (op : Nat → Option String) (intervals : Nat → Nat) (maxElapsed : Nat) :
    Nat → Nat → Nat → RetryResult
  | 0, _, _ => .fuelOut
  | fuel + 1, n, elapsed =>
    match op n with
    | none => .ok n
    | some e =>
      if maxElapsed < elapsed then .failed e elapsed
      else retryNotify op intervals maxElapsed fuel (n + 1) (elapsed + intervals n)

/-- ebo.MaxElapsedTime = 60 * time.Second in Begin. -/
def syncMaxElapsed : Nat := 60 * timeSecond

/-- The transaction handle built by Begin:
type datastoreTransaction struct \x7b *Datastore; remoteLock store.Locker; dirty bool; id string \x7d.
The Datastore back-reference and the remote lock live in the environment. -/
structure datastoreTransaction where
  id : String
  dirty : Bool
deriving DecidableEq, Repr

/-- store.LockOptions\x7bTTL: 20 * time.Second, Value: []byte(id)\x7d. -/
structure LockOptions where
  TTL : Nat          -- nanoseconds, as a Go time.Duration
  Value : String
deriving DecidableEq, Repr

/-- Outcome of the race in Begin between the goroutine running
remoteLock.Lock(stopCh) (which cancels the sub-context when done) and the
lifetime context d.ctx. -/
inductive RaceOutcome where
  | lockReturned (errLock : Option String)  -- sub-context done: the Lock call finished
  | lifetimeCancelled (ctxErr : String)     -- d.ctx done first: stop the attempt
deriving DecidableEq, Repr

/-- External outcomes a Begin call can observe. -/
structure BeginEnv (Obj : Type) where
  newLockErr : Option String            -- error of d.kv.NewLock
  race : RaceOutcome
  dsAt : Nat → DatastoreState Obj       -- cached state seen by sync attempt n (resync runs concurrently)
  intervals : Nat → Nat                 -- backoff sleeps of the sync poll, nanoseconds

/-- What a Begin call did and returned. -/
structure BeginOutcome (Obj : Type) where
  lockRequests : List (String × LockOptions)  -- every d.kv.NewLock(key, options) call made
  result : Except String datastoreTransaction

/-- func (d *Datastore) Begin() (Transaction, error), with the fresh uuid id
passed in as a parameter:
request the remote lock for d.lockKey with TTL 20s and value id, race the
blocking Lock call against the lifetime context, then poll the cached
metadata until its Lock field equals id, with exponential backoff bounded
by a total elapsed time of 60 seconds; over the bound, fail with a
Datastore cannot sync error. -/
def Datastore.Begin {Obj : Type} (lockKey : String) (id : String) (env : BeginEnv Obj) :
    BeginOutcome Obj :=
  let req : String × LockOptions := (lockKey, { TTL := 20 * timeSecond, Value := id })
  match env.newLockErr with
  | some e => { lockRequests := [req], result := .error e }
  | none =>
    match env.race with
    | .lifetimeCancelled ctxErr =>
        { lockRequests := [req], result := .error ctxErr }
    | .lockReturned (some e) =>
        { lockRequests := [req], result := .error e }
    | .lockReturned none =>
        match retryNotify (fun n => (syncOperation (env.dsAt n) id).1) env.intervals
            syncMaxElapsed (syncMaxElapsed + 2) 0 0 with
        | .ok _ =>
            { lockRequests := [req], result := .ok { id := id, dirty := false } }
        | .failed e _ =>
            { lockRequests := [req], result := .error ("Datastore cannot sync: " ++ e) }
        | .fuelOut =>
            { lockRequests := [req], result := .error "Datastore cannot sync: fuel exhausted" }

/-- External outcomes a Commit call can observe. -/
structure CommitEnv where
  storeErr : Option String   -- error of s.kv.StoreConfig(object)
  unlockErr : Option String  -- error of s.remoteLock.Unlock()
deriving DecidableEq, Repr

/-- What a Commit call did and returned. -/
structure CommitOutcome (Obj : Type) where
  result : Option String       -- returned error, none on success
  ds : DatastoreState Obj      -- cached state afterwards
  tx : datastoreTransaction    -- transaction afterwards (dirty flag)
  trace : List (Ev Obj)
deriving DecidableEq, Repr

/-- func (s *datastoreTransaction) Commit(object Object) error:
take the write guard (released by defer on every path); fail if the
transaction is already dirty; persist the object; release the remote
lock; install the object in the cache and set the dirty flag. -/
def datastoreTransaction.Commit {Obj : Type} (env : CommitEnv) (d : DatastoreState Obj)
    (s : datastoreTransaction) (object : Obj) : CommitOutcome Obj :=
  if s.dirty then
    { result := some "Transaction already used. Please begin a new one.",
      ds := d, tx := s, trace := [.wLock, .wUnlock] }
  else
    match env.storeErr with
    | some e =>
        { result := some e, ds := d, tx := s, trace := [.wLock, .storeConfig, .wUnlock] }
    | none =>
      match env.unlockErr with
      | some e =>
          { result := some e, ds := d, tx := s,
            trace := [.wLock, .storeConfig, .lockerUnlock, .wUnlock] }
      | none =>
          { result := none, ds := { d with object := object }, tx := { s with dirty := true },
            trace := [.wLock, .storeConfig, .lockerUnlock, .writeObject, .wUnlock] }

/-- What the select in the watch operation loop can observe next. -/
inductive WatchEvent where
  | ctxDone      -- the sub-context is done (lifetime context cancelled)
  | chanClosed   -- reading kvCh yields ok = false: the stream closed
  | notice       -- a change event arrived on kvCh
deriving DecidableEq, Repr

/-- External outcomes one notification processing can observe. -/
structure ResyncEnv (Obj : Type) where
  loadObject : Except String Obj       -- d.kv.LoadConfig(d.object): the reloaded object, or an error
  loadMeta : Except String Metadata    -- d.kv.LoadConfig(d.meta): the reloaded metadata, or an error
  hasListener : Bool                   -- d.listener != nil
  listenerErr : Option String          -- error returned by the listener call
deriving DecidableEq, Repr

/-- Control result of one iteration of the for loop inside the operation. -/
inductive StepOutcome where
  | opReturn (e : Option String)  -- the operation returns, with a nil or non-nil error
  | next                          -- fall through to the next loop iteration
deriving DecidableEq, Repr

/-- One iteration of the for-select loop of the operation closure in
watchChanges.  On ctxDone: stopCh <- struct\x7b\x7d\x7b\x7d and return nil.  On a closed
channel: cancel() and return err, where err is the variable captured from
the d.kv.Watch registration.  On a notification: take the write guard,
reload the object, reload the metadata (unlocking and returning the error
if either reload fails), release the guard, then call the listener if one
is configured, logging but otherwise ignoring its error. -/
def watchStep {Obj : Type} (capturedErr : Option String) (env : ResyncEnv Obj)
    (st : DatastoreState Obj) :
    WatchEvent → DatastoreState Obj × List (Ev Obj) × StepOutcome
  | .ctxDone => (st, [.stopWatch], .opReturn none)
  | .chanClosed => (st, [.cancelSub], .opReturn capturedErr)
  | .notice =>
    match env.loadObject with
    | .error e => (st, [.wLock, .loadObject, .wUnlock], .opReturn (some e))
    | .ok o =>
      match env.loadMeta with
      | .error e =>
          ({ st with object := o }, [.wLock, .loadObject, .loadMeta, .wUnlock],
           .opReturn (some e))
      | .ok m =>
          ({ object := o, meta := m },
           [.wLock, .loadObject, .loadMeta, .wUnlock] ++
             (if env.hasListener then
                .listenerCall o ::
                  (match env.listenerErr with
                   | some _ => [.logListenerErr]
                   | none => [])
              else []),
           .next)

/-- A run of the operation closure over a list of pending select outcomes. -/
structure OpRun (Obj : Type) where
  st : DatastoreState Obj
  trace : List (Ev Obj)
  ret : Option (Option String)              -- none: still blocked in select; some e: returned e
  rest : List (WatchEvent × ResyncEnv Obj)  -- events not yet consumed
deriving Repr

/-- Run the for loop of the operation until it returns or the supplied
events run out (the loop is then still blocked in its select). -/
def operationRun {Obj : Type} (capturedErr : Option String) (st : DatastoreState Obj) :
    List (WatchEvent × ResyncEnv Obj) → OpRun Obj
  | [] => { st := st, trace := [], ret := none, rest := [] }
  | (ev, env) :: rest =>
    match watchStep capturedErr env st ev with
    | (st2, tr, .opReturn e) => { st := st2, trace := tr, ret := some e, rest := rest }
    | (st2, tr, .next) =>
      let r := operationRun capturedErr st2 rest
      { st := r.st, trace := tr ++ r.trace, ret := r.ret, rest := r.rest }

/-- How the goroutine of watchChanges ends. -/
inductive WatchEnd where
  | pending                                          -- still blocked in the select
  | exited (retErr : Option String) (loggedFinal : Bool)  -- RetryNotify returned; final log iff non-nil
  | fuelOut
deriving DecidableEq, Repr

/-- A run of the whole goroutine of watchChanges. -/
structure WatchRun (Obj : Type) where
  st : DatastoreState Obj
  trace : List (Ev Obj)
  outcome : WatchEnd
deriving DecidableEq, Repr

/-- backoff.RetryNotify(operation, backoff.NewExponentialBackOff(), notify)
followed by: if err != nil \x7b log.Errorf(...) \x7d.  A nil operation result
ends the retry loop; an error is logged by notify and the operation is
retried on the remaining events (staying inside the default elapsed-time
budget of the backoff).  The fuel argument only makes the recursion total. -/
def retryWatch {Obj : Type} (capturedErr : Option String) :
    Nat → DatastoreState Obj → List (WatchEvent × ResyncEnv Obj) → WatchRun Obj
  | 0, st, _ => { st := st, trace := [], outcome := .fuelOut }
  | fuel + 1, st, events =>
    let r := operationRun capturedErr st events
    match r.ret with
    | none => { st := r.st, trace := r.trace, outcome := .pending }
    | some none =>
        { st := r.st, trace := r.trace, outcome := .exited none (Option.isSome (none : Option String)) }
    | some (some e) =>
        let w := retryWatch capturedErr fuel r.st r.rest
        { st := w.st, trace := r.trace ++ .logRetry e :: w.trace, outcome := w.outcome }

/-- func (d *Datastore) watchChanges() error: register the watch on the
lock key (failing the constructor on a registration error) and start the
goroutine; inside the goroutine the captured err variable from the
registration is necessarily nil, which is the value the closed-channel
branch returns. -/
def watchChanges {Obj : Type} (watchErr : Option String) (st : DatastoreState Obj)
    (fuel : Nat) (events : List (WatchEvent × ResyncEnv Obj)) :
    Except String (WatchRun Obj) :=
  match watchErr with
  | some e => .error e
  | none => .ok (retryWatch none fuel st events)

/-- Recognizer for listener call events. -/
def isListenerCall {Obj : Type} : Ev Obj → Bool
  | .listenerCall _ => true
  | _ => false

/-- Concrete environments used by the closed instance theorems below. -/
def st0 : DatastoreState Nat := { object := 0, meta := { Lock := "" } }

def env0 : ResyncEnv Nat :=
  { loadObject := .ok 0, loadMeta := .ok { Lock := "" },
    hasListener := false, listenerErr := none }

def env1w : BeginEnv Nat :=
  { newLockErr := none, race := .lockReturned none,
    dsAt := fun _ => { object := 0, meta := { Lock := "other" } },
    intervals := fun _ => 1 }

def env3w : BeginEnv Nat :=
  { newLockErr := none, race := .lockReturned none,
    dsAt := fun _ => { object := 0, meta := { Lock := "tid" } },
    intervals := fun _ => 1 }

def env9w : ResyncEnv Nat :=
  { loadObject := .ok 5, loadMeta := .ok { Lock := "x" },
    hasListener := true, listenerErr := some "listener failed" }

def d6 : DatastoreState Nat := { object := 0, meta := { Lock := "other" } }

/-- A successful retry run succeeded at the attempt it reports. -/
theorem retryNotify_ok_imp (op : Nat → Option String) (intervals : Nat → Nat)
    (maxElapsed : Nat) :
    ∀ fuel n elapsed k,
      retryNotify op intervals maxElapsed fuel n elapsed = .ok k → op k = none := by
  intro fuel
  induction fuel with
  | zero => intro n elapsed k h; simp [retryNotify] at h
  | succ fuel ih =>
    intro n elapsed k h
    cases hop : op n with
    | none =>
      simp only [retryNotify, hop] at h
      cases h
      exact hop
    | some e =>
      simp only [retryNotify, hop] at h
      by_cases hc : maxElapsed < elapsed
      · simp [hc] at h
      · simp only [if_neg hc] at h
        exact ih _ _ _ h

/-- When every attempt fails and every sleep is positive, a retry run with
enough fuel stops with the last error, and only once the accumulated
elapsed time has exceeded the bound. -/
theorem retryNotify_allFail (op : Nat → Option String) (intervals : Nat → Nat)
    (maxElapsed : Nat)
    (hop : ∀ n, (op n).isSome = true) (hpos : ∀ n, 1 ≤ intervals n) :
    ∀ fuel n elapsed, maxElapsed < elapsed + fuel →
      ∃ e el,
        retryNotify op intervals maxElapsed (fuel + 1) n elapsed = .failed e el ∧
          maxElapsed < el := by
  intro fuel
  induction fuel with
  | zero =>
    intro n elapsed h
    obtain ⟨e, he⟩ := Option.isSome_iff_exists.mp (hop n)
    have hc : maxElapsed < elapsed := by simpa using h
    exact ⟨e, elapsed, by simp [retryNotify, he, hc], hc⟩
  | succ fuel ih =>
    intro n elapsed h
    obtain ⟨e, he⟩ := Option.isSome_iff_exists.mp (hop n)
    by_cases hc : maxElapsed < elapsed
    · exact ⟨e, elapsed, by simp [retryNotify, he, hc], hc⟩
    · have h2 : maxElapsed < elapsed + intervals n + fuel := by
        have := hpos n; omega
      obtain ⟨e2, el, heq, hel⟩ := ih (n + 1) (elapsed + intervals n) h2
      refine ⟨e2, el, ?_, hel⟩
      simp only [retryNotify, he, if_neg hc]
      exact heq

/-- The sync operation succeeds exactly when the cached lock holder equals
the transaction id. -/
theorem syncOperation_fst {Obj : Type} (d : DatastoreState Obj) (id : String) :
    (syncOperation d id).1 = none ↔ d.meta.Lock = id := by
  by_cases h : d.meta.Lock = id <;> simp [syncOperation, Datastore.get, h]

/-- Any transaction handed back by Begin carries the generated id and an
unset dirty flag. -/
theorem Begin_result_ok {Obj : Type} (lockKey id : String) (env : BeginEnv Obj)
    (tx : datastoreTransaction)
    (h : (Datastore.Begin lockKey id env).result = .ok tx) :
    tx = { id := id, dirty := false } := by
  cases hn : env.newLockErr with
  | some e => simp [Datastore.Begin, hn] at h
  | none =>
    cases hr : env.race with
    | lifetimeCancelled ce => simp [Datastore.Begin, hn, hr] at h
    | lockReturned el =>
      cases el with
      | some e => simp [Datastore.Begin, hn, hr] at h
      | none =>
        cases hrr : retryNotify (fun n => (syncOperation (env.dsAt n) id).1) env.intervals
            syncMaxElapsed (syncMaxElapsed + 2) 0 0 with
        | ok k =>
          simp only [Datastore.Begin, hn, hr, hrr] at h
          cases h
          rfl
        | failed e el => simp [Datastore.Begin, hn, hr, hrr] at h
        | fuelOut => simp [Datastore.Begin, hn, hr, hrr] at h

/-- C1: after the remote lock is granted, Begin repeatedly reads the cached
Metadata lock-holder field with backoff bounded to 60 seconds of total
elapsed time; it returns a transaction only if that field becomes equal to
the id generated at the start of the call, and when the bound is exceeded
it returns a Datastore cannot sync error and no transaction. -/
theorem C1_begin_sync {Obj : Type} (lockKey id : String) (env : BeginEnv Obj)
    (hnew : env.newLockErr = none) (hrace : env.race = .lockReturned none)
    (hpos : ∀ n, 1 ≤ env.intervals n) :
    (∀ tx, (Datastore.Begin lockKey id env).result = .ok tx →
      tx.id = id ∧ ∃ n, (env.dsAt n).meta.Lock = id) ∧
    ((∀ n, (env.dsAt n).meta.Lock ≠ id) →
      ∃ e, (Datastore.Begin lockKey id env).result =
        .error ("Datastore cannot sync: " ++ e)) := by
  constructor
  · intro tx h
    have htx := Begin_result_ok lockKey id env tx h
    refine ⟨by rw [htx], ?_⟩
    cases hrr : retryNotify (fun n => (syncOperation (env.dsAt n) id).1) env.intervals
        syncMaxElapsed (syncMaxElapsed + 2) 0 0 with
    | ok k =>
      have hk := retryNotify_ok_imp (fun n => (syncOperation (env.dsAt n) id).1)
        env.intervals syncMaxElapsed _ _ _ _ hrr
      exact ⟨k, (syncOperation_fst (env.dsAt k) id).mp hk⟩
    | failed e el => simp [Datastore.Begin, hnew, hrace, hrr] at h
    | fuelOut => simp [Datastore.Begin, hnew, hrace, hrr] at h
  · intro hmiss
    have hop : ∀ n, ((fun n => (syncOperation (env.dsAt n) id).1) n).isSome = true := by
      intro n
      simp [syncOperation, Datastore.get, hmiss n]
    obtain ⟨e, el, heq, _⟩ :=
      retryNotify_allFail (fun n => (syncOperation (env.dsAt n) id).1) env.intervals
        syncMaxElapsed hop hpos (syncMaxElapsed + 1) 0 0 (by omega)
    have heq2 : retryNotify (fun n => (syncOperation (env.dsAt n) id).1) env.intervals
        syncMaxElapsed (syncMaxElapsed + 2) 0 0 = .failed e el := heq
    exact ⟨e, by simp [Datastore.Begin, hnew, hrace, heq2]⟩

/-- C1 witness: with a cache whose lock holder never matches, Begin fails
with the cannot sync error. -/
theorem C1_begin_sync_witness :
    ∃ e, (Datastore.Begin "traefik/lock" "tid" env1w).result =
      .error ("Datastore cannot sync: " ++ e) :=
  (C1_begin_sync "traefik/lock" "tid" env1w rfl rfl (fun _ => Nat.le_refl 1)).2
    (fun _ => show ("other" : String) ≠ "tid" by decide)

/-- C2: for a transaction in the Created state, a failing persistence step
makes Commit return that error, performs no unlock, leaves the cached
object and the dirty flag unchanged, and the same transaction can commit
again successfully. -/
theorem C2_commit_persist_failure {Obj : Type} (env : CommitEnv) (e : String)
    (hs : env.storeErr = some e) (d : DatastoreState Obj) (s : datastoreTransaction)
    (hdirty : s.dirty = false) (v : Obj) :
    (datastoreTransaction.Commit env d s v).result = some e ∧
    Ev.lockerUnlock ∉ (datastoreTransaction.Commit env d s v).trace ∧
    Ev.writeObject ∉ (datastoreTransaction.Commit env d s v).trace ∧
    (datastoreTransaction.Commit env d s v).ds = d ∧
    (datastoreTransaction.Commit env d s v).tx.dirty = false ∧
    (∀ env2 : CommitEnv, env2.storeErr = none → env2.unlockErr = none →
      (datastoreTransaction.Commit env2 (datastoreTransaction.Commit env d s v).ds
        (datastoreTransaction.Commit env d s v).tx v).result = none) := by
  refine ⟨?_, ?_, ?_, ?_, ?_, ?_⟩ <;>
    simp [datastoreTransaction.Commit, hs, hdirty]
  intro env2 h1 h2
  simp [datastoreTransaction.Commit, h1, h2, hdirty]

/-- C2 witness at a concrete failing store call. -/
theorem C2_commit_persist_failure_witness :
    (datastoreTransaction.Commit { storeErr := some "boom", unlockErr := none }
      ({ object := 7, meta := { Lock := "a" } } : DatastoreState Nat)
      { id := "tid", dirty := false } 9).result = some "boom" :=
  (C2_commit_persist_failure { storeErr := some "boom", unlockErr := none } "boom" rfl
    { object := 7, meta := { Lock := "a" } } { id := "tid", dirty := false } rfl 9).1

/-- C3: after a successful Begin and a successful Commit of v, Get on the
same datastore returns v, and the Get trace makes no call to the store. -/
theorem C3_read_after_commit {Obj : Type} (lockKey id : String) (benv : BeginEnv Obj)
    (tx : datastoreTransaction)
    (hb : (Datastore.Begin lockKey id benv).result = .ok tx)
    (cenv : CommitEnv) (hs : cenv.storeErr = none) (hu : cenv.unlockErr = none)
    (d : DatastoreState Obj) (v : Obj) :
    (datastoreTransaction.Commit cenv d tx v).result = none ∧
    (Datastore.Get (datastoreTransaction.Commit cenv d tx v).ds).1 = v ∧
    ∀ e ∈ (Datastore.Get (datastoreTransaction.Commit cenv d tx v).ds).2,
      e ≠ Ev.loadObject ∧ e ≠ Ev.loadMeta ∧ e ≠ Ev.storeConfig ∧ e ≠ Ev.lockerUnlock := by
  have htx := Begin_result_ok lockKey id benv tx hb
  subst htx
  refine ⟨?_, ?_, ?_⟩ <;>
    simp [datastoreTransaction.Commit, hs, hu, Datastore.Get]

/-- C3 witness at a concrete successful Begin and Commit. -/
theorem C3_read_after_commit_witness :
    (Datastore.Get (datastoreTransaction.Commit { storeErr := none, unlockErr := none }
      ({ object := 7, meta := { Lock := "tid" } } : DatastoreState Nat)
      { id := "tid", dirty := false } 9).ds).1 = 9 :=
  (C3_read_after_commit "traefik/lock" "tid" env3w { id := "tid", dirty := false } rfl
    { storeErr := none, unlockErr := none } rfl rfl
    { object := 7, meta := { Lock := "tid" } } 9).2.1

/-- C4: once a Commit has succeeded on a transaction, any further Commit on
it returns the already used error and has no side effects: no store write,
no unlock, no cache change, dirty flag unchanged. -/
theorem C4_commit_already_used {Obj : Type} (env1 : CommitEnv) (d : DatastoreState Obj)
    (s : datastoreTransaction) (v : Obj)
    (h1 : (datastoreTransaction.Commit env1 d s v).result = none)
    (env2 : CommitEnv) (w : Obj) :
    (datastoreTransaction.Commit env2 (datastoreTransaction.Commit env1 d s v).ds
      (datastoreTransaction.Commit env1 d s v).tx w).result =
        some "Transaction already used. Please begin a new one." ∧
    (datastoreTransaction.Commit env2 (datastoreTransaction.Commit env1 d s v).ds
      (datastoreTransaction.Commit env1 d s v).tx w).ds =
        (datastoreTransaction.Commit env1 d s v).ds ∧
    (datastoreTransaction.Commit env2 (datastoreTransaction.Commit env1 d s v).ds
      (datastoreTransaction.Commit env1 d s v).tx w).tx =
        (datastoreTransaction.Commit env1 d s v).tx ∧
    Ev.storeConfig ∉ (datastoreTransaction.Commit env2 (datastoreTransaction.Commit env1 d s v).ds
      (datastoreTransaction.Commit env1 d s v).tx w).trace ∧
    Ev.lockerUnlock ∉ (datastoreTransaction.Commit env2 (datastoreTransaction.Commit env1 d s v).ds
      (datastoreTransaction.Commit env1 d s v).tx w).trace ∧
    Ev.writeObject ∉ (datastoreTransaction.Commit env2 (datastoreTransaction.Commit env1 d s v).ds
      (datastoreTransaction.Commit env1 d s v).tx w).trace := by
  by_cases hd : s.dirty
  · simp [datastoreTransaction.Commit, hd] at h1
  · cases hse : env1.storeErr with
    | some e => simp [datastoreTransaction.Commit, hd, hse] at h1
    | none =>
      cases hue : env1.unlockErr with
      | some e => simp [datastoreTransaction.Commit, hd, hse, hue] at h1
      | none =>
        refine ⟨?_, ?_, ?_, ?_, ?_, ?_⟩ <;>
          simp [datastoreTransaction.Commit, hd, hse, hue]

/-- C4 witness: a second Commit on a concretely committed transaction. -/
theorem C4_commit_already_used_witness :
    (datastoreTransaction.Commit { storeErr := some "late", unlockErr := none }
      (datastoreTransaction.Commit { storeErr := none, unlockErr := none }
        ({ object := 7, meta := { Lock := "tid" } } : DatastoreState Nat)
        { id := "tid", dirty := false } 9).ds
      (datastoreTransaction.Commit { storeErr := none, unlockErr := none }
        ({ object := 7, meta := { Lock := "tid" } } : DatastoreState Nat)
        { id := "tid", dirty := false } 9).tx 11).result =
      some "Transaction already used. Please begin a new one." :=
  (C4_commit_already_used { storeErr := none, unlockErr := none }
    { object := 7, meta := { Lock := "tid" } } { id := "tid", dirty := false } 9 rfl
    { storeErr := some "late", unlockErr := none } 11).1

/-- C5 counterexample: when the notification channel closes, the watch
goroutine cancels its sub-context and exits permanently, but the operation
returns the captured nil registration error, so the retry wrapper reports
success and no error is logged: the exit outcome carries retErr none and a
false logged flag, and the trace holds no log event, refuting the part of
the claim that says the error causing the exit is logged. -/
theorem C5_counterexample :
    watchChanges none st0 5 [(.chanClosed, env0)] =
      .ok { st := st0, trace := [.cancelSub], outcome := .exited none false } ∧
    Except.map WatchRun.outcome (watchChanges none st0 5 [(.chanClosed, env0)]) ≠
      .ok (.exited none true) := by decide

/-- C5 (amended): when the notification channel closes unexpectedly, the
sub-context is cancelled and the retry loop exits permanently without
consuming further events, but no error is logged: the operation returns
the nil error captured from the successful watch registration, so the
retry wrapper reports success and the final error log is skipped. -/
theorem C5_stream_close {Obj : Type} (st : DatastoreState Obj) (env : ResyncEnv Obj)
    (fuel : Nat) (rest : List (WatchEvent × ResyncEnv Obj)) :
    watchChanges none st (fuel + 1) ((.chanClosed, env) :: rest) =
      .ok { st := st, trace := [.cancelSub], outcome := .exited none false } := by
  simp [watchChanges, retryWatch, operationRun, watchStep]

/-- C6 counterexample: the sync-verification poll reads the lock-holder
field with zero read holds and zero write holds, because Datastore.get
releases the read hold before returning the metadata pointer whose field
the poll then compares, refuting the part of the claim that says the
comparison is performed under the guard. -/
theorem C6_counterexample :
    guardedOk (syncOperation d6 "tid").2 = false ∧
    (Ev.readMetaField, 0, 0) ∈ annotate 0 0 (syncOperation d6 "tid").2 := by decide

/-- C6 (amended): Get reads the cached object under a read hold, Commit and
the resync reload access the cache only under a write hold, and the
sync-verification poll takes a read hold only around fetching the metadata
pointer: its comparison of the lock-holder field happens after the read
hold has been released, at zero holds. -/
theorem C6_guard_discipline {Obj : Type} :
    (∀ d : DatastoreState Obj, guardedOk (Datastore.Get d).2 = true) ∧
    (∀ (env : CommitEnv) (d : DatastoreState Obj) (s : datastoreTransaction) (v : Obj),
      guardedOk (datastoreTransaction.Commit env d s v).trace = true) ∧
    (∀ (capturedErr : Option String) (env : ResyncEnv Obj) (st : DatastoreState Obj)
        (ev : WatchEvent),
      guardedOk (watchStep capturedErr env st ev).2.1 = true) ∧
    (∀ (d : DatastoreState Obj) (id : String),
      annotate 0 0 (syncOperation d id).2 =
        [(.rLock, 0, 0), (.readMetaPtr, 1, 0), (.rUnlock, 1, 0), (.readMetaField, 0, 0)]) := by
  refine ⟨fun d => rfl, ?_, ?_, fun d id => rfl⟩
  · intro env d s v
    by_cases hd : s.dirty <;>
      cases hse : env.storeErr <;>
        cases hue : env.unlockErr <;>
          simp [datastoreTransaction.Commit, hd, hse, hue, guardedOk, annotate, accessOk]
  · intro capturedErr env st ev
    cases ev with
    | ctxDone => rfl
    | chanClosed => rfl
    | notice =>
      cases ho : env.loadObject with
      | error e => simp [watchStep, ho, guardedOk, annotate, accessOk]
      | ok o =>
        cases hm : env.loadMeta with
        | error e => simp [watchStep, ho, hm, guardedOk, annotate, accessOk]
        | ok m =>
          cases hl : env.hasListener <;>
            cases hle : env.listenerErr <;>
              simp [watchStep, ho, hm, hl, hle, guardedOk, annotate, accessOk]

/-- C7: when the store write succeeds but the unlock fails, Commit returns
the unlock error, the cache and dirty flag are untouched, Get still hands
back the pre-commit object even though the store call was made, and the
transaction stays usable for another Commit attempt. -/
theorem C7_unlock_failure {Obj : Type} (env : CommitEnv) (e : String)
    (hs : env.storeErr = none) (hu : env.unlockErr = some e)
    (d : DatastoreState Obj) (s : datastoreTransaction)
    (hdirty : s.dirty = false) (v : Obj) :
    (datastoreTransaction.Commit env d s v).result = some e ∧
    (datastoreTransaction.Commit env d s v).ds = d ∧
    (datastoreTransaction.Commit env d s v).tx.dirty = false ∧
    (Datastore.Get (datastoreTransaction.Commit env d s v).ds).1 = d.object ∧
    Ev.storeConfig ∈ (datastoreTransaction.Commit env d s v).trace ∧
    Ev.writeObject ∉ (datastoreTransaction.Commit env d s v).trace ∧
    (∀ env2 : CommitEnv, env2.storeErr = none → env2.unlockErr = none →
      (datastoreTransaction.Commit env2 (datastoreTransaction.Commit env d s v).ds
        (datastoreTransaction.Commit env d s v).tx v).result = none) := by
  refine ⟨?_, ?_, ?_, ?_, ?_, ?_, ?_⟩ <;>
    simp [datastoreTransaction.Commit, hs, hu, hdirty, Datastore.Get]
  intro env2 h1 h2
  simp [datastoreTransaction.Commit, h1, h2, hdirty]

/-- C7 witness at a concrete failing unlock. -/
theorem C7_unlock_failure_witness :
    (datastoreTransaction.Commit { storeErr := none, unlockErr := some "lost" }
      ({ object := 7, meta := { Lock := "tid" } } : DatastoreState Nat)
      { id := "tid", dirty := false } 9).result = some "lost" :=
  (C7_unlock_failure { storeErr := none, unlockErr := some "lost" } "lost" rfl rfl
    { object := 7, meta := { Lock := "tid" } } { id := "tid", dirty := false } rfl 9).1

/-- C8: on every path, a Begin call issues exactly one lock request, for
the namespace of the KV client suffixed with /lock, with a TTL of 20
seconds and the freshly generated transaction id as the recorded value. -/
theorem C8_lock_request {Obj : Type} (ns id : String) (env : BeginEnv Obj) :
    (Datastore.Begin (NewDataStore.lockKey ns) id env).lockRequests =
      [(ns ++ "/lock", { TTL := 20 * timeSecond, Value := id })] := by
  cases hn : env.newLockErr with
  | some e => simp [Datastore.Begin, NewDataStore.lockKey, hn]
  | none =>
    cases hr : env.race with
    | lifetimeCancelled ce => simp [Datastore.Begin, NewDataStore.lockKey, hn, hr]
    | lockReturned el =>
      cases el with
      | some e => simp [Datastore.Begin, NewDataStore.lockKey, hn, hr]
      | none =>
        cases hrr : retryNotify (fun n => (syncOperation (env.dsAt n) id).1) env.intervals
            syncMaxElapsed (syncMaxElapsed + 2) 0 0 with
        | ok k => simp [Datastore.Begin, NewDataStore.lockKey, hn, hr, hrr]
        | failed e el => simp [Datastore.Begin, NewDataStore.lockKey, hn, hr, hrr]
        | fuelOut => simp [Datastore.Begin, NewDataStore.lockKey, hn, hr, hrr]

/-- C9: a successful resync reload with a configured listener invokes the
listener exactly once, with the refreshed object, at zero guard holds; a
listener error is logged but the loop continues to the next select
iteration whatever the listener returned. -/
theorem C9_listener {Obj : Type} (capturedErr : Option String) (env : ResyncEnv Obj)
    (st : DatastoreState Obj) (o : Obj) (m : Metadata)
    (ho : env.loadObject = .ok o) (hm : env.loadMeta = .ok m)
    (hl : env.hasListener = true) :
    (watchStep capturedErr env st .notice).2.2 = .next ∧
    (watchStep capturedErr env st .notice).1.object = o ∧
    (watchStep capturedErr env st .notice).2.1.filter isListenerCall =
      [.listenerCall o] ∧
    (∀ p ∈ annotate 0 0 (watchStep capturedErr env st .notice).2.1,
      isListenerCall p.1 = true → p.2 = (0, 0)) ∧
    (Ev.logListenerErr ∈ (watchStep capturedErr env st .notice).2.1 ↔
      env.listenerErr.isSome = true) := by
  cases hle : env.listenerErr <;>
    refine ⟨?_, ?_, ?_, ?_, ?_⟩ <;>
      simp [watchStep, ho, hm, hl, hle, annotate, isListenerCall]

/-- C9 witness at a concrete reload with a failing listener. -/
theorem C9_listener_witness :
    (watchStep none env9w st0 .notice).2.2 = .next :=
  (C9_listener none env9w st0 5 { Lock := "x" } rfl rfl rfl).1

/-- C10: the resync reload balances the write guard on every exit path:
whether reloading the object fails, reloading the metadata fails, or both
succeed, the trace respects the guard discipline, leaves no hold behind,
and any listener call happens only at zero holds. -/
theorem C10_guard_released {Obj : Type} (capturedErr : Option String)
    (env : ResyncEnv Obj) (st : DatastoreState Obj) :
    finalHolds 0 0 (watchStep capturedErr env st .notice).2.1 = (0, 0) ∧
    guardedOk (watchStep capturedErr env st .notice).2.1 = true ∧
    (∀ p ∈ annotate 0 0 (watchStep capturedErr env st .notice).2.1,
      isListenerCall p.1 = true → p.2 = (0, 0)) := by
  cases ho : env.loadObject with
  | error e => simp [watchStep, ho, finalHolds, guardedOk, annotate, accessOk, isListenerCall]
  | ok o =>
    cases hm : env.loadMeta with
    | error e =>
      simp [watchStep, ho, hm, finalHolds, guardedOk, annotate, accessOk, isListenerCall]
    | ok m =>
      cases hl : env.hasListener <;>
        cases hle : env.listenerErr <;>
          simp [watchStep, ho, hm, hl, hle, finalHolds, guardedOk, annotate, accessOk,
            isListenerCall]

end Cluster
